import Mathlib

/-!
Verification of the OMR Checker API adapter layer.

This file embeds the adapter/orchestrator layer of the repository
(api/routes.py, api/utils.py, src/api_adapter.py) as executable Lean
definitions and proves properties of its batch orchestration,
configuration merging, template validation and temp-file cleanup.

External collaborators (cv2 image decoding, the recognition pipeline) are
parameters of the embedded functions, matching the contract of spec
section 4.5.  Components of the repository that are referenced but whose
source is not under src/ (the built-in CONFIG_DEFAULTS object, the core
jsonschema validator, Template.from_dict) are modelled from the spec and
marked as such in their doc comments.
-/

/-- A JSON-like value, the shape of the Python dict/list/scalar data the
adapter passes around.  Objects keep insertion order, as Python dicts do. -/
inductive Json where
  | null : Json
  | bool (b : Bool) : Json
  | num (n : Int) : Json
  | str (s : String) : Json
  | arr (xs : List Json) : Json
  | obj (kvs : List (String × Json)) : Json
  deriving Repr

/-- Lookup in an association list, first match wins (Python dict lookup). -/
def assocLookup : List (String × Json) → String → Option Json
  | [], _ => none
  | (k', v) :: t, k => if k' = k then some v else assocLookup t k

/-- Python dict assignment d[k] = v: replace the value in place if the key
is present, otherwise append the new entry. -/
def assocSet : List (String × Json) → String → Json → List (String × Json)
  | [], k, v => [(k, v)]
  | (k', v') :: t, k, v =>
      if k' = k then (k', v) :: t else (k', v') :: assocSet t k v

mutual

/-- The merge of the deepmerge library object always_merger, which
src/api_adapter.py imports and uses.  Its documented default strategies
are: dict with dict merges key by key in place into the base, list with
list appends the more specific list after the base list, and every other
combination (scalars, or a type conflict) is overridden by the more
specific value. -/
def alwaysMerge : Json → Json → Json
  | .obj b, .obj n => .obj (mergeKVs b n)
  | .arr b, .arr n => .arr (b ++ n)
  | _, n => n

/-- deepmerge dict strategy: fold the items of the more specific dict into
the base dict one key at a time. -/
def mergeKVs : List (String × Json) → List (String × Json) → List (String × Json)
  | base, [] => base
  | base, (k, v) :: rest => mergeKVs (mergeUpsert base k v) rest

/-- One step of the deepmerge dict strategy: merge onto an existing entry
of the base in place, otherwise append the new entry. -/
def mergeUpsert : List (String × Json) → String → Json → List (String × Json)
  | [], k, v => [(k, v)]
  | (k', v') :: t, k, v =>
      if k' = k then (k', alwaysMerge v' v) :: t
      else (k', v') :: mergeUpsert t k v

end

/-- Python truthiness of a JSON-shaped value: None, False, 0, empty
string, empty list and empty dict are falsy. -/
def jsonTruthy : Json → Bool
  | .null => false
  | .bool b => b
  | .num n => n != 0
  | .str s => !s.isEmpty
  | .arr xs => !xs.isEmpty
  | .obj kvs => !kvs.isEmpty

/-- Key lookup on a JSON value: only objects have keys. -/
def getKey : Json → String → Option Json
  | .obj kvs, k => assocLookup kvs k
  | _, _ => none

/-- Path lookup on a JSON value. -/
def getPath : Json → List String → Option Json
  | j, [] => some j
  | j, k :: ks =>
      match getKey j k with
      | some v => getPath v ks
      | none => none

/-- Lower-casing of a string, the Python str.lower (over the character
list, so that it evaluates inside the kernel). -/
def lowerStr (s : String) : String := ⟨s.data.map Char.toLower⟩

/-- Whether the pattern occurs as a contiguous run inside the haystack. -/
def listHasPat : List Char → List Char → Bool
  | hay, pat =>
    match hay with
    | [] => pat.isEmpty
    | _ :: t => pat.isPrefixOf hay || listHasPat t pat

/-- Substring test, the semantics of the Python expression pat in s. -/
def strContains (s pat : String) : Bool := listHasPat s.data pat.data

/-- The characters after the last dot of a name. -/
def afterLastDot (l : List Char) : List Char :=
  (l.reverse.takeWhile (fun c => c != '.')).reverse

/-- The pathlib suffix of a file name: the last dot and what follows it,
empty when the name has no dot. -/
def fileSuffix (s : String) : String :=
  if s.data.contains '.' then "." ++ String.mk (afterLastDot s.data) else ""

/-- The Python membership test k in j.  On a dict it tests the keys, on a
list it tests the values, on a string it is a substring test, and on any
other value it raises a TypeError. -/
def pyContains (j : Json) (k : String) : Except String Bool :=
  match j with
  | .obj kvs => .ok (assocLookup kvs k).isSome
  | .arr xs => .ok (xs.any fun x =>
      match x with
      | .str s => s = k
      | _ => false)
  | .str s => .ok (strContains s k)
  | _ => .error "TypeError: argument is not iterable"

/-- The Python item assignment j[k] = v, which raises a TypeError on
anything that is not a dict (lists only take integer indices here). -/
def pySetItem (j : Json) (k : String) (v : Json) : Except String Json :=
  match j with
  | .obj kvs => .ok (.obj (assocSet kvs k v))
  | _ => .error "TypeError: object does not support item assignment"

/-- The Python item access j[k] for a string key. -/
def pyGetItem (j : Json) (k : String) : Except String Json :=
  match j with
  | .obj kvs =>
      match assocLookup kvs k with
      | some v => .ok v
      | none => .error ("KeyError: " ++ k)
  | _ => .error "TypeError: object is not subscriptable"

/-- The Python nested assignment j[k1][k2] = v. -/
def pySetItem2 (j : Json) (k1 k2 : String) (v : Json) : Except String Json :=
  match pyGetItem j k1 with
  | .error e => .error e
  | .ok inner =>
      match pySetItem inner k2 v with
      | .error e => .error e
      | .ok inner2 => pySetItem j k1 inner2

/-- api/utils.py get_default_config (lines 262 to 283): the hard-coded
default configuration the adapter starts from. -/
def get_default_config : Json :=
  .obj [
    ("dimensions", .obj [
      ("display_width", .num 1240),
      ("display_height", .num 1754),
      ("processing_height", .num 1754),
      ("processing_width", .num 1240)]),
    ("threshold_params", .obj [
      ("MIN_JUMP", .num 10)]),
    ("outputs", .obj [
      ("filter_out_multimarked_files", .bool false),
      ("show_image_level", .num 0)])]

/-- Modelled from the spec: the built-in defaults object CONFIG_DEFAULTS
imported from src/defaults, whose source is not under src/.  Per spec
section 3 a ConfigSnapshot holds display and processing dimensions,
thresholding parameters, output toggles and the alignment toggle; this is
its initial value, before any request has run. -/
def CONFIG_DEFAULTS_init : Json :=
  .obj [
    ("dimensions", .obj [
      ("display_width", .num 1240),
      ("display_height", .num 1754),
      ("processing_height", .num 1754),
      ("processing_width", .num 1240)]),
    ("threshold_params", .obj [
      ("MIN_JUMP", .num 10),
      ("MIN_GAP", .num 30)]),
    ("alignment_params", .obj [
      ("auto_align", .bool false),
      ("match_col", .num 5),
      ("max_steps", .num 20)]),
    ("outputs", .obj [
      ("show_image_level", .num 0),
      ("save_image_level", .num 0),
      ("filter_out_multimarked_files", .bool false)])]

/-- src/api_adapter.py _prepare_config, lines 204 to 218: the
service-mode overrides on the already merged configuration:
show_image_level and save_image_level forced to 0 when display is
disabled, and auto_align set explicitly.  The DotMap conversion at line
218 does not change the value and is the identity here.  A raised Python
exception (for example item assignment on a non-dict) is an error
value. -/
def apply_service_overrides (config1 : Json) (auto_align : Bool)
    (disable_display : Bool) : Except String Json :=
  let afterDisplay : Except String Json :=
    if disable_display then
      match pyContains config1 "outputs" with
      | .error e => .error e
      | .ok hasOut =>
          match (if hasOut then Except.ok config1
            else pySetItem config1 "outputs" (.obj [])) with
          | .error e => .error e
          | .ok c2 =>
              match pySetItem2 c2 "outputs" "show_image_level" (.num 0) with
              | .error e => .error e
              | .ok c3 => pySetItem2 c3 "outputs" "save_image_level" (.num 0)
    else .ok config1
  match afterDisplay with
  | .error e => .error e
  | .ok c4 =>
      match pyContains c4 "alignment_params" with
      | .error e => .error e
      | .ok hasAlign =>
          match (if hasAlign then Except.ok c4
            else pySetItem c4 "alignment_params" (.obj [])) with
          | .error e => .error e
          | .ok c5 => pySetItem2 c5 "alignment_params" "auto_align" (.bool auto_align)

/-- The first two steps of _prepare_config, lines 197 to 202: start from
get_default_config and deep-merge the user config over it when one is
given and truthy, then hand the result to the service-mode overrides. -/
def built_config (config_data : Option Json) (auto_align : Bool)
    (disable_display : Bool) : Except String Json :=
  apply_service_overrides
    (match config_data with
     | some cd =>
        if jsonTruthy cd then alwaysMerge get_default_config cd
        else get_default_config
     | none => get_default_config) auto_align disable_display

/-- src/api_adapter.py _prepare_config, lines 185 to 223.  The final step
(line 221) deep-merges the built configuration over the module-level
CONFIG_DEFAULTS object; the deepmerge dict strategy writes into its base,
so the returned snapshot is the CONFIG_DEFAULTS object itself after the
merge.  The first argument is the current value of CONFIG_DEFAULTS. -/
def prepare_config (defaults : Json) (config_data : Option Json)
    (auto_align disable_display : Bool) : Except String Json :=
  (built_config config_data auto_align disable_display).map
    (fun c => alwaysMerge defaults c)

/-- The value of the module-level CONFIG_DEFAULTS object after a call of
_prepare_config: the merge result when the call returns, the old value
when the call raises before reaching the final merge. -/
def prepare_config_state (defaults : Json) (config_data : Option Json)
    (auto_align disable_display : Bool) : Json :=
  match prepare_config defaults config_data auto_align disable_display with
  | .ok r => r
  | .error _ => defaults

/-- A materialized template object.  The recognition internals of the
Template class are external to this layer; the adapter only threads the
object through, so the carried data is enough here. -/
structure Template where
  data : Json
  deriving Repr

/-- Whether one field block satisfies the structural invariants of spec
section 3: it declares a fieldType or both bubbleValues and direction,
and it has an origin.  fieldLabels is not required. -/
def blockOk : Json → Bool
  | .obj kvs =>
      ((assocLookup kvs "fieldType").isSome ||
        ((assocLookup kvs "bubbleValues").isSome &&
          (assocLookup kvs "direction").isSome)) &&
      (assocLookup kvs "origin").isSome
  | _ => false

/-- Modelled from the spec: Template.from_dict lives in src/template.py,
which is not under src/.  Per spec sections 3 and 4.3, materializing
validates the structural invariants before construction: required
pageDimensions and bubbleDimensions, a nonempty fieldBlocks mapping, and
each block resolvable per blockOk; a missing fieldLabels is not fatal.
On success the template object carries the given structure. -/
def template_from_dict (template_data : Json) : Except String Template :=
  match template_data with
  | .obj kvs =>
      if (assocLookup kvs "pageDimensions").isNone then
        .error "Invalid template: missing pageDimensions"
      else if (assocLookup kvs "bubbleDimensions").isNone then
        .error "Invalid template: missing bubbleDimensions"
      else
        match assocLookup kvs "fieldBlocks" with
        | some (.obj blocks) =>
            if blocks.isEmpty then
              .error "Invalid template: missing or empty fieldBlocks"
            else if blocks.all fun b => blockOk b.2 then
              .ok ⟨template_data⟩
            else
              .error "Invalid template: malformed field block"
        | some _ => .error "Invalid template: fieldBlocks is not a mapping"
        | none => .error "Invalid template: missing or empty fieldBlocks"
  | _ => .error "Invalid template: not an object"

/-- Modelled from the spec: the core schema validator
src.utils.validations.validate_template_json, whose source is not under
src/.  Per spec section 4.3 it enforces the same structural invariants of
section 3 that materialization checks, raising a validation error exactly
when they fail; a block lacking only fieldLabels passes.  The raised
message is returned, none meaning the template passed. -/
def core_validate (template_data : Json) : Option String :=
  match template_from_dict template_data with
  | .ok _ => none
  | .error e => some e

/-- The value returned (or raised) by api/utils.py validate_template_json:
a details dict, a plain boolean, the Python None value, or a propagated
exception. -/
inductive ValidateOut where
  | details (valid : Bool) (errors warnings : List String) : ValidateOut
  | plain (b : Bool) : ValidateOut
  | pyNone : ValidateOut
  | raised (e : String) : ValidateOut
  deriving Repr

/-- The per-block checks of api/utils.py validate_template_json, lines 108
to 119, folded over the field blocks in order: a block missing both
fieldType and the bubbleValues plus direction pair is an error, a missing
origin is an error, a missing fieldLabels is a warning.  A membership test
on a non-container block raises. -/
def blockChecks (acc : List String × List String) (name : String)
    (block : Json) : Except String (List String × List String) :=
  match pyContains block "fieldType" with
  | .error e => .error e
  | .ok hasFieldType =>
    match pyContains block "bubbleValues" with
    | .error e => .error e
    | .ok hasBubbleValues =>
      match pyContains block "direction" with
      | .error e => .error e
      | .ok hasDirection =>
        match pyContains block "origin" with
        | .error e => .error e
        | .ok hasOrigin =>
          match pyContains block "fieldLabels" with
          | .error e => .error e
          | .ok hasLabels =>
            let errs := acc.1
            let errs := if !hasFieldType && !(hasBubbleValues && hasDirection) then
                errs ++ ["Block " ++ name ++ " missing fieldType or bubbleValues+direction"]
              else errs
            let errs := if !hasOrigin then errs ++ ["Block " ++ name ++ " missing origin"]
              else errs
            let warns := if !hasLabels then
                acc.2 ++ ["Block " ++ name ++ " missing fieldLabels"]
              else acc.2
            .ok (errs, warns)

/-- The loop of api/utils.py lines 108 to 119 over the field blocks in
order, propagating a raised exception. -/
def runBlockChecks : List (String × Json) → (List String × List String) →
    Except String (List String × List String)
  | [], acc => .ok acc
  | (name, block) :: rest, acc =>
      match blockChecks acc name block with
      | .error e => .error e
      | .ok acc2 => runBlockChecks rest acc2

/-- api/utils.py validate_template_json, lines 71 to 137 (string quoting
inside the Python messages is elided).  The core validator runs first;
when it passes, is_valid is set and the function body ends with no return
statement on that path, so the Python function returns None.  When it
raises, the additional checks of lines 97 to 119 accumulate errors and
warnings, and the result is the details dict or the plain boolean. -/
def validate_template_json (template_data : Json) (return_details : Bool) :
    ValidateOut :=
  match core_validate template_data with
  | none => ValidateOut.pyNone
  | some e =>
      match template_data with
      | .obj kvs =>
          let errors := [e]
          let errors := if (assocLookup kvs "pageDimensions").isSome then errors
            else errors ++ ["Missing pageDimensions"]
          let errors := if (assocLookup kvs "bubbleDimensions").isSome then errors
            else errors ++ ["Missing bubbleDimensions"]
          let fbMissing :=
            match assocLookup kvs "fieldBlocks" with
            | none => true
            | some fb => !jsonTruthy fb
          let errors := if fbMissing then errors ++ ["Missing or empty fieldBlocks"]
            else errors
          match assocLookup kvs "fieldBlocks" with
          | some (.obj blocks) =>
              match runBlockChecks blocks (errors, ([] : List String)) with
              | .error ex => ValidateOut.raised ex
              | .ok (errs, warns) =>
                  if return_details then ValidateOut.details errs.isEmpty errs warns
                  else ValidateOut.plain errs.isEmpty
          | some _ => ValidateOut.raised "AttributeError: items on a non-dict"
          | none =>
              if return_details then ValidateOut.details errors.isEmpty errors []
              else ValidateOut.plain errors.isEmpty
      | _ => ValidateOut.raised "TypeError: argument is not iterable"

/-- One per-item processing record, spec section 3 ProcessingResult.  The
optional annotated image, score and evaluation breakdown live inside the
abstract response payload. -/
structure ProcResult where
  status : String
  file_name : String
  message : Option String
  response : Option Json
  deriving Repr

/-- The aggregate batch payload of src/api_adapter.py process_omr_batch
and process_dir_for_api, spec section 3 BatchResult. -/
structure BatchResult where
  status : String
  total : Nat
  successful : Nat
  failed : Nat
  results : List ProcResult
  deriving Repr

/-- src/api_adapter.py process_omr_image, lines 22 to 124, with the
external collaborators as parameters: imdecode is the cv2 grayscale
decoder behind api/utils.py bytes_to_numpy (lines 205 to 221, returning
none exactly when cv2 cannot decode the bytes), and pipe is the external
recognition pipeline of spec section 4.5 (preprocessors, response
reading, response concatenation, optional evaluation and image encoding),
a deterministic function of the configuration, template and decoded
image, raising by returning an error.  The body mirrors the source: every
stage runs inside one try block; a decode failure or any raised exception
becomes an error record carrying the file name, and a completed run
becomes a success record. -/
def process_omr_image (imdecode : List Nat → Option (List Nat))
    (pipe : Json → Template → List Nat → Except String Json)
    (defaults : Json) (template_data : Json) (config_data : Option Json)
    (auto_align : Bool) (image_data : List Nat) (file_name : String) :
    ProcResult :=
  match imdecode image_data with
  | none => ⟨"error", file_name, some "Failed to decode image", none⟩
  | some image =>
      match prepare_config defaults config_data auto_align true with
      | .error e => ⟨"error", file_name, some e, none⟩
      | .ok config =>
          match template_from_dict template_data with
          | .error e => ⟨"error", file_name, some e, none⟩
          | .ok template =>
              match pipe config template image with
              | .error e => ⟨"error", file_name, some e, none⟩
              | .ok resp => ⟨"success", file_name, none, some resp⟩

/-- src/api_adapter.py process_omr_batch, lines 127 to 182: process the
images zipped with the file names in order, count successes and failures,
and return the aggregate payload whose top-level status is the literal
string success. -/
def process_omr_batch (imdecode : List Nat → Option (List Nat))
    (pipe : Json → Template → List Nat → Except String Json)
    (defaults : Json) (template_data : Json) (config_data : Option Json)
    (auto_align : Bool) (images_data : List (List Nat))
    (file_names : List String) : BatchResult :=
  let results := (images_data.zip file_names).map fun p =>
    process_omr_image imdecode pipe defaults template_data config_data
      auto_align p.1 p.2
  { status := "success"
    total := images_data.length
    successful := results.countP fun r => r.status == "success"
    failed := results.countP fun r => r.status != "success"
    results := results }

/-- The outcome of src/api_adapter.py process_dir_for_api: an early error
payload, the final batch payload, or a propagated exception (the
configuration and template are prepared outside the per-item try block,
so an error there is raised to the caller). -/
inductive DirOutcome where
  | errorPayload (message : String) : DirOutcome
  | payload (b : BatchResult) : DirOutcome
  | raised (e : String) : DirOutcome
  deriving Repr

/-- A snapshot of the input directory as process_dir_for_api observes it:
whether it exists, whether template.json exists and what it parses to,
whether config.json exists and what loading it yields, the names of the
plain files in the directory, and the bytes of each file. -/
structure DirContent where
  present : Bool
  hasTemplate : Bool
  template_data : Json
  hasConfig : Bool
  config_data : Json
  entries : List String
  bytesOf : String → List Nat

/-- The extension test of process_dir_for_api, lines 326 to 330: the
lower-cased suffix must be .png, .jpg or .jpeg. -/
def hasImageSuffix (name : String) : Bool :=
  let ext := lowerStr (fileSuffix name)
  ext == ".png" || ext == ".jpg" || ext == ".jpeg"

/-- The image discovery of process_dir_for_api, lines 326 to 336: files
with an image extension whose lower-cased name does not contain the word
marker. -/
def discoverImages (entries : List String) : List String :=
  (entries.filter hasImageSuffix).filter fun n =>
    !strContains (lowerStr n) "marker"

/-- src/api_adapter.py process_dir_for_api, lines 279 to 447.  Missing
directory, missing template file and an empty image list return an error
payload directly.  The configuration and the template are then prepared
once, outside any try block, so a failure there propagates as an
exception.  Each discovered image is processed inside its own try block:
a decode failure or a pipeline exception becomes a per-item error record
and the loop continues.  The final payload always carries the literal
status success. -/
def process_dir_for_api (imdecode : List Nat → Option (List Nat))
    (pipe : Json → Template → List Nat → Except String Json)
    (defaults : Json) (dir : DirContent) (auto_align : Bool) : DirOutcome :=
  if !dir.present then
    .errorPayload "Directory not found"
  else if !dir.hasTemplate then
    .errorPayload "Template file not found in directory: template.json"
  else
    let image_files := discoverImages dir.entries
    if image_files.isEmpty then
      .errorPayload "No image files found in directory"
    else
      let config_data := if dir.hasConfig then some dir.config_data else none
      match prepare_config defaults config_data auto_align true with
      | .error e => .raised e
      | .ok config =>
          match template_from_dict dir.template_data with
          | .error e => .raised e
          | .ok template =>
              let results := image_files.map fun name =>
                match imdecode (dir.bytesOf name) with
                | none =>
                    (⟨"error", name, some "Failed to decode image", none⟩ : ProcResult)
                | some image =>
                    match pipe config template image with
                    | .error e => ⟨"error", name, some e, none⟩
                    | .ok resp => ⟨"success", name, none, some resp⟩
              .payload
                { status := "success"
                  total := image_files.length
                  successful := results.countP fun r => r.status == "success"
                  failed := results.countP fun r => r.status != "success"
                  results := results }

/-- An entry of the temp_files list maintained by api/routes.py
process_omr: the code appends raw byte payloads (the read marker and
image contents, lines 147, 171 and 190), and cleanup only acts on string
paths. -/
inductive TempEntry where
  | bytesVal (b : List Nat) : TempEntry
  | pathVal (p : String) : TempEntry
  deriving Repr, DecidableEq

/-- api/utils.py cleanup_temp_files, lines 55 to 68: delete every entry
that is a string naming an existing file; everything else is skipped
silently.  The file system is the list of existing paths. -/
def cleanup_temp_files (temp_files : List TempEntry) (fs : List String) :
    List String :=
  fs.filter fun p => !temp_files.contains (TempEntry.pathVal p)

/-- The fixed location _create_template_from_dict persists an uploaded
marker to (src/api_adapter.py line 255). -/
def tempMarkerPath : String := "/tmp/omr_marker_temp.jpg"

/-- Whether a template declares a CropOnMarkers preprocessing step
(the scan of src/api_adapter.py lines 251 to 253). -/
def hasCropOnMarkers (template_data : Json) : Bool :=
  match getKey template_data "preProcessors" with
  | some (.arr ps) => ps.any fun p =>
      match getKey p "name" with
      | some (.str s) => s == "CropOnMarkers"
      | _ => false
  | _ => false

/-- The file-system effect of src/api_adapter.py
_create_template_from_dict, lines 249 to 261: when marker bytes were
supplied and the template declares a CropOnMarkers step, the marker image
is written to the fixed temporary path (cv2.imwrite creates or
overwrites the file).  Nothing records that path anywhere. -/
def create_template_fs (template_data : Json) (marker_supplied : Bool)
    (fs : List String) : List String :=
  if marker_supplied && hasCropOnMarkers template_data then
    if fs.contains tempMarkerPath then fs else fs ++ [tempMarkerPath]
  else fs

/-- The temp_files list as api/routes.py _process_file_upload builds it
(lines 144 to 190): the marker bytes when a marker was uploaded, then the
bytes of every image, in order.  Only raw bytes are ever appended; no
path is. -/
def route_temp_files (marker_data : Option (List Nat))
    (images_data : List (List Nat)) : List TempEntry :=
  (match marker_data with
   | some m => [TempEntry.bytesVal m]
   | none => []) ++ images_data.map TempEntry.bytesVal

/-- The file-system story of one api/routes.py process_omr upload request
(lines 47 to 82): the upload handler collects temp_files while the batch
runs (each item runs _create_template_from_dict, writing the marker file
when one applies), and the finally block then runs cleanup_temp_files
over the collected entries.  The result is the set of paths existing
after the request completes. -/
def process_omr_route_fs (template_data : Json)
    (marker_data : Option (List Nat)) (images_data : List (List Nat))
    (fs : List String) : List String :=
  let temp := route_temp_files marker_data images_data
  let fs2 := images_data.foldl
    (fun acc _ => create_template_fs template_data marker_data.isSome acc) fs
  cleanup_temp_files temp fs2

mutual

/-- Structure compatibility of an override with a base value: along every
key the override shares with the base, an object-valued base entry must
be overridden by an object again (recursively), and the override mapping
must have no duplicate keys.  Under this condition a deep merge cannot
drop any key path of the base.  Non-object base values carry no key
paths, so anything may override them. -/
def objCompat : Json → Json → Bool
  | .obj b, n =>
      match n with
      | .obj nn => objCompatKVs b nn
      | _ => false
  | _, _ => true

/-- Entrywise side of objCompat: each override entry whose key exists in
the base is recursively compatible with the base value, and the override
keys are pairwise distinct. -/
def objCompatKVs : List (String × Json) → List (String × Json) → Bool
  | _, [] => true
  | b, (k, v) :: rest =>
      (match assocLookup b k with
       | some bv => objCompat bv v
       | none => true) &&
      !(rest.map Prod.fst).contains k && objCompatKVs b rest

end

/-- Fixture: a decoder that fails on every byte string (cv2 returning
None for undecodable bytes). -/
def decNone : List Nat → Option (List Nat) := fun _ => none

/-- Fixture: a decoder that decodes every byte string to itself. -/
def decSome : List Nat → Option (List Nat) := fun b => some b

/-- Fixture: a pipeline that raises on every image. -/
def pipeErr : Json → Template → List Nat → Except String Json :=
  fun _ _ _ => .error "pipeline failed"

/-- Fixture: a pipeline that reads every image successfully. -/
def pipeOk : Json → Template → List Nat → Except String Json :=
  fun _ _ _ => .ok (.str "resp")

/-- Fixture: a structurally valid template with one complete field block. -/
def tdGood : Json :=
  .obj [
    ("pageDimensions", .arr [.num 1240, .num 1754]),
    ("bubbleDimensions", .arr [.num 18, .num 18]),
    ("fieldBlocks", .obj [
      ("Block1", .obj [
        ("fieldType", .str "QTYPE_INT"),
        ("origin", .arr [.num 100, .num 100]),
        ("fieldLabels", .arr [.str "q1"])])])]

/-- Fixture: a template whose only defect is a field block without
fieldLabels. -/
def tdNoLabels : Json :=
  .obj [
    ("pageDimensions", .arr [.num 1240, .num 1754]),
    ("bubbleDimensions", .arr [.num 18, .num 18]),
    ("fieldBlocks", .obj [
      ("Block1", .obj [
        ("fieldType", .str "QTYPE_INT"),
        ("origin", .arr [.num 100, .num 100])])])]

/-- Fixture: a template with no fieldBlocks key at all. -/
def tdNoBlocks : Json :=
  .obj [
    ("pageDimensions", .arr [.num 1240, .num 1754]),
    ("bubbleDimensions", .arr [.num 18, .num 18])]

/-- Fixture: a valid template declaring a CropOnMarkers preprocessing
step. -/
def tdCrop : Json :=
  .obj [
    ("pageDimensions", .arr [.num 1240, .num 1754]),
    ("bubbleDimensions", .arr [.num 18, .num 18]),
    ("preProcessors", .arr [
      .obj [
        ("name", .str "CropOnMarkers"),
        ("options", .obj [("relativePath", .str "omr_marker.jpg")])]]),
    ("fieldBlocks", .obj [
      ("Block1", .obj [
        ("fieldType", .str "QTYPE_INT"),
        ("origin", .arr [.num 100, .num 100]),
        ("fieldLabels", .arr [.str "q1"])])])]

/-- Fixture: a directory holding a valid template and one image file. -/
def dir0 : DirContent :=
  { present := true
    hasTemplate := true
    template_data := tdGood
    hasConfig := false
    config_data := .null
    entries := ["scan1.jpg", "template.json"]
    bytesOf := fun _ => [7] }

instance : Inhabited ProcResult := ⟨⟨"", "", none, none⟩⟩

instance : Inhabited BatchResult := ⟨⟨"", 0, 0, 0, []⟩⟩

/-- Extract the batch payload of a directory-mode outcome. -/
def payloadOf : DirOutcome → BatchResult
  | .payload b => b
  | _ => default

/-- The snapshot CONFIG_DEFAULTS holds after the first request of the C9
scenario, which supplied a config with a key of its own. -/
def c9_state1 : Json :=
  prepare_config_state CONFIG_DEFAULTS_init
    (some (.obj [("extra_key", .num 7)])) false true

/-- The snapshot a later request with no config of its own receives, after
the request of c9_state1 ran. -/
def c9_snapB : Json := prepare_config_state c9_state1 none false true

/-- The snapshot a request with no config of its own receives on a fresh
service, before any other request ran. -/
def c9_snapA : Json := prepare_config_state CONFIG_DEFAULTS_init none false true

/-- First request config of the C4 array scenario. -/
def c4_cfg1 : Json := .obj [("custom_list", .arr [.num 1])]

/-- Second request config of the C4 array scenario: per the claim its
array value should fully replace any lower-precedence value of the same
key. -/
def c4_cfg2 : Json := .obj [("custom_list", .arr [.num 2])]

/-- Defaults state after the first C4 request. -/
def c4_state1 : Json :=
  prepare_config_state CONFIG_DEFAULTS_init (some c4_cfg1) false true

/-- The snapshot the second C4 request receives. -/
def c4_snap2 : Json := prepare_config_state c4_state1 (some c4_cfg2) false true

/-- The user config of the C4 precedence scenario: it contests the
service-mode overrides and a built-in threshold default. -/
def c4_cfgPrec : Json :=
  .obj [
    ("outputs", .obj [("show_image_level", .num 5)]),
    ("alignment_params", .obj [("auto_align", .bool true)]),
    ("threshold_params", .obj [("MIN_JUMP", .num 99)]),
    ("user_key", .num 42)]

/-- The snapshot of the C4 precedence scenario. -/
def c4_snapPrec : Json :=
  prepare_config_state CONFIG_DEFAULTS_init (some c4_cfgPrec) false true

/-- The user config of the C5 counterexample: it overrides an
object-valued default key with a scalar. -/
def c5_cfgBad : Json := .obj [("threshold_params", .num 5)]

/-- The snapshot of the C5 counterexample. -/
def c5_snapBad : Json :=
  prepare_config_state CONFIG_DEFAULTS_init (some c5_cfgBad) false true

theorem assocLookup_assocSet (l : List (String × Json)) (k : String)
    (v : Json) (q : String) :
    assocLookup (assocSet l k v) q =
      if q = k then some v else assocLookup l q := by
  induction l with
  | nil =>
      simp only [assocSet, assocLookup]
      rcases eq_or_ne q k with h | h
      · rw [if_pos h.symm, if_pos h]
      · rw [if_neg (Ne.symm h), if_neg h]
  | cons hd t ih =>
      obtain ⟨k1, v1⟩ := hd
      simp only [assocSet]
      rcases eq_or_ne k1 k with h1 | h1
      · rw [if_pos h1]
        subst h1
        simp only [assocLookup]
        rcases eq_or_ne q k1 with h | h
        · rw [if_pos h.symm, if_pos h]
        · rw [if_neg (Ne.symm h), if_neg h, if_neg (Ne.symm h)]
      · rw [if_neg h1]
        simp only [assocLookup, ih]
        rcases eq_or_ne q k with h | h
        · rcases eq_or_ne k1 q with h2 | h2
          · exact absurd (h2.trans h) h1
          · simp [h, h2]
            intro hh
            exact absurd hh h1
        · rcases eq_or_ne k1 q with h2 | h2
          · simp [h, h2]
          · simp [h, h2]

theorem assocLookup_mergeUpsert (l : List (String × Json)) (k : String)
    (v : Json) (q : String) :
    assocLookup (mergeUpsert l k v) q =
      if q = k then
        some (match assocLookup l k with
          | some old => alwaysMerge old v
          | none => v)
      else assocLookup l q := by
  induction l with
  | nil =>
      simp only [mergeUpsert, assocLookup]
      rcases eq_or_ne q k with h | h
      · rw [if_pos h.symm, if_pos h]
      · rw [if_neg (Ne.symm h), if_neg h]
  | cons hd t ih =>
      obtain ⟨k1, v1⟩ := hd
      simp only [mergeUpsert]
      rcases eq_or_ne k1 k with h1 | h1
      · rw [if_pos h1]
        subst h1
        simp only [assocLookup]
        rcases eq_or_ne q k1 with h | h
        · rw [if_pos h.symm, if_pos h]
          simp
        · rw [if_neg (Ne.symm h), if_neg h, if_neg (Ne.symm h)]
      · rw [if_neg h1]
        simp only [assocLookup, ih]
        rcases eq_or_ne q k with h | h
        · rcases eq_or_ne k1 q with h2 | h2
          · exact absurd (h2.trans h) h1
          · rw [if_neg h2, if_pos h, if_pos h, if_neg (show k1 ≠ k from h ▸ h2)]
        · rcases eq_or_ne k1 q with h2 | h2
          · rw [if_pos h2, if_neg h, if_pos h2]
          · rw [if_neg h2, if_neg h, if_neg h, if_neg h2]

theorem assocLookup_mergeKVs_isSome (n : List (String × Json)) :
    ∀ (base : List (String × Json)) (q : String),
      (assocLookup base q).isSome →
      (assocLookup (mergeKVs base n) q).isSome := by
  induction n with
  | nil =>
      intro base q h
      simpa [mergeKVs] using h
  | cons hd t ih =>
      obtain ⟨k, v⟩ := hd
      intro base q h
      rw [mergeKVs]
      apply ih
      rw [assocLookup_mergeUpsert]
      rcases eq_or_ne q k with hq | hq
      · rw [if_pos hq]
        rfl
      · rw [if_neg hq]
        exact h

theorem assocLookup_mergeKVs_not_mem (n : List (String × Json)) :
    ∀ (base : List (String × Json)) (q : String),
      (∀ kv ∈ n, kv.1 ≠ q) →
      assocLookup (mergeKVs base n) q = assocLookup base q := by
  induction n with
  | nil =>
      intro base q _
      rw [mergeKVs]
  | cons hd t ih =>
      obtain ⟨k, v⟩ := hd
      intro base q hmem
      rw [mergeKVs, ih _ q fun kv hkv => hmem kv (List.mem_cons_of_mem _ hkv)]
      rw [assocLookup_mergeUpsert]
      rw [if_neg fun h => hmem (k, v) (List.mem_cons_self _ _) h.symm]

theorem assocLookup_mergeKVs_mem (n : List (String × Json)) :
    ∀ (base : List (String × Json)) (q : String) (v : Json),
      (n.map Prod.fst).Nodup →
      assocLookup n q = some v →
      assocLookup (mergeKVs base n) q =
        some (match assocLookup base q with
          | some old => alwaysMerge old v
          | none => v) := by
  induction n with
  | nil =>
      intro base q v _ h
      simp [assocLookup] at h
  | cons hd t ih =>
      obtain ⟨k, w⟩ := hd
      intro base q v hnd hv
      rw [mergeKVs]
      simp only [List.map_cons, List.nodup_cons] at hnd
      simp only [assocLookup] at hv
      rcases eq_or_ne k q with hk | hk
      · rw [if_pos hk] at hv
        obtain rfl : w = v := Option.some_injective _ hv
        rw [assocLookup_mergeKVs_not_mem t _ q ?notmem]
        · rw [assocLookup_mergeUpsert]
          rw [if_pos hk.symm, hk]
        · intro kv hkv h
          apply hnd.1
          rw [hk, ← h]
          exact List.mem_map_of_mem Prod.fst hkv
      · rw [if_neg hk] at hv
        rw [ih _ q v hnd.2 hv, assocLookup_mergeUpsert,
          if_neg (Ne.symm hk)]

theorem alwaysMerge_num (b : Json) (z : Int) :
    alwaysMerge b (.num z) = .num z := by
  cases b <;> simp [alwaysMerge]

theorem alwaysMerge_bool (b : Json) (x : Bool) :
    alwaysMerge b (.bool x) = .bool x := by
  cases b <;> simp [alwaysMerge]

theorem alwaysMerge_str (b : Json) (s : String) :
    alwaysMerge b (.str s) = .str s := by
  cases b <;> simp [alwaysMerge]

theorem alwaysMerge_arr_arr (a c : List Json) :
    alwaysMerge (.arr a) (.arr c) = .arr (a ++ c) := by
  simp [alwaysMerge]

theorem alwaysMerge_obj_obj (b n : List (String × Json)) :
    alwaysMerge (.obj b) (.obj n) = .obj (mergeKVs b n) := by
  simp [alwaysMerge]

theorem pySetItem_ok (j : Json) (k : String) (v c : Json)
    (h : pySetItem j k v = .ok c) :
    ∃ kvs, j = .obj kvs ∧ c = .obj (assocSet kvs k v) := by
  cases j <;> simp [pySetItem] at h
  case obj kvs => exact ⟨kvs, rfl, h.symm⟩

theorem pySetItem2_ok (j : Json) (k1 k2 : String) (v c : Json)
    (h : pySetItem2 j k1 k2 v = .ok c) :
    ∃ kvs inner, j = .obj kvs ∧ assocLookup kvs k1 = some (.obj inner) ∧
      c = .obj (assocSet kvs k1 (.obj (assocSet inner k2 v))) := by
  cases j <;> simp [pySetItem2, pyGetItem] at h
  case obj kvs =>
    cases hl : assocLookup kvs k1 with
    | none => simp [hl] at h
    | some inner =>
        simp only [hl] at h
        cases inner <;> simp [pySetItem] at h
        case obj innerKVs =>
          exact ⟨kvs, innerKVs, rfl, hl, h.symm⟩

theorem assocLookup_eq_none (l : List (String × Json)) (q : String)
    (h : assocLookup l q = none) : ∀ kv ∈ l, kv.1 ≠ q := by
  induction l with
  | nil => intro kv hkv; simp at hkv
  | cons hd t ih =>
      obtain ⟨k1, v1⟩ := hd
      intro kv hkv
      simp only [assocLookup] at h
      rcases eq_or_ne k1 q with hq | hq
      · rw [if_pos hq] at h
        exact absurd h (by simp)
      · rw [if_neg hq] at h
        rcases List.mem_cons.mp hkv with rfl | hmem
        · exact hq
        · exact ih h kv hmem

theorem objCompatKVs_parts (b : List (String × Json)) (k : String) (v : Json)
    (rest : List (String × Json))
    (h : objCompatKVs b ((k, v) :: rest) = true) :
    (match assocLookup b k with
      | some bv => objCompat bv v
      | none => true) = true ∧
    ¬ k ∈ rest.map Prod.fst ∧ objCompatKVs b rest = true := by
  rw [objCompatKVs] at h
  simp only [Bool.and_eq_true, Bool.not_eq_true', List.contains, List.elem_eq_mem,
    decide_eq_false_iff_not] at h
  exact ⟨h.1.1, h.1.2, h.2⟩

theorem objCompatKVs_nodup (b nn : List (String × Json))
    (h : objCompatKVs b nn = true) : (nn.map Prod.fst).Nodup := by
  induction nn with
  | nil => simp
  | cons hd rest ih =>
      obtain ⟨k, v⟩ := hd
      obtain ⟨_, hnotmem, hrest⟩ := objCompatKVs_parts b k v rest h
      simp only [List.map_cons, List.nodup_cons]
      exact ⟨hnotmem, ih hrest⟩

theorem objCompatKVs_lookup (b nn : List (String × Json)) (k : String)
    (bv nv : Json) (h : objCompatKVs b nn = true)
    (h1 : assocLookup b k = some bv) (h2 : assocLookup nn k = some nv) :
    objCompat bv nv = true := by
  induction nn with
  | nil => simp [assocLookup] at h2
  | cons hd rest ih =>
      obtain ⟨k1, v1⟩ := hd
      obtain ⟨hcompat, _, hrest⟩ := objCompatKVs_parts b k1 v1 rest h
      simp only [assocLookup] at h2
      rcases eq_or_ne k1 k with hk | hk
      · rw [if_pos hk] at h2
        obtain rfl : v1 = nv := Option.some_injective _ h2
        rw [hk, h1] at hcompat
        exact hcompat
      · rw [if_neg hk] at h2
        exact ih hrest h2

theorem getPath_alwaysMerge_isSome : ∀ (ks : List String) (b n : Json),
    objCompat b n = true → (getPath b ks).isSome →
    (getPath (alwaysMerge b n) ks).isSome := by
  intro ks
  induction ks with
  | nil => intro b n _ _; simp [getPath]
  | cons k ks ih =>
      intro b n hcompat hpath
      simp only [getPath] at hpath
      cases hk : getKey b k with
      | none => rw [hk] at hpath; simp at hpath
      | some bv =>
          rw [hk] at hpath
          cases b with
          | obj bkvs =>
              cases n with
              | obj nkvs =>
                  rw [objCompat] at hcompat
                  rw [alwaysMerge_obj_obj]
                  simp only [getKey] at hk
                  cases hnk : assocLookup nkvs k with
                  | none =>
                      simp only [getPath, getKey]
                      rw [assocLookup_mergeKVs_not_mem nkvs bkvs k
                        (assocLookup_eq_none nkvs k hnk), hk]
                      exact hpath
                  | some nv =>
                      simp only [getPath, getKey]
                      rw [assocLookup_mergeKVs_mem nkvs bkvs k nv
                        (objCompatKVs_nodup bkvs nkvs hcompat) hnk, hk]
                      exact ih bv nv
                        (objCompatKVs_lookup bkvs nkvs k bv nv hcompat hk hnk) hpath
              | null => simp [objCompat] at hcompat
              | bool x => simp [objCompat] at hcompat
              | num z => simp [objCompat] at hcompat
              | str s => simp [objCompat] at hcompat
              | arr xs => simp [objCompat] at hcompat
          | null => simp [getKey] at hk
          | bool x => simp [getKey] at hk
          | num z => simp [getKey] at hk
          | str s => simp [getKey] at hk
          | arr xs => simp [getKey] at hk

theorem built_config_ok_obj (cd : Option Json) (aa dd : Bool) (c : Json)
    (h : built_config cd aa dd = .ok c) : ∃ kvs, c = .obj kvs := by
  simp only [built_config, apply_service_overrides] at h
  repeat' split at h
  all_goals
    first
      | (simp at h)
      | (obtain ⟨kvs, inner, _, _, hc⟩ := pySetItem2_ok _ _ _ _ _ h
         exact ⟨_, hc⟩)

theorem prepare_config_ok (defaults : Json) (cd : Option Json)
    (aa dd : Bool) (snap : Json)
    (h : prepare_config defaults cd aa dd = .ok snap) :
    ∃ c, built_config cd aa dd = .ok c ∧ snap = alwaysMerge defaults c := by
  unfold prepare_config at h
  cases hb : built_config cd aa dd with
  | error e => rw [hb] at h; simp [Except.map] at h
  | ok c =>
      rw [hb] at h
      simp only [Except.map] at h
      exact ⟨c, rfl, (Except.ok.injEq _ _ ▸ h).symm⟩

theorem countP_bool_split {α : Type} (p : α → Bool) (l : List α) :
    l.countP p + l.countP (fun a => !p a) = l.length := by
  induction l with
  | nil => rfl
  | cons hd t ih =>
      rw [List.countP_cons, List.countP_cons, List.length_cons]
      cases h : p hd
      · rw [if_neg (by simp [h]), if_pos (by simp [h])]
        omega
      · rw [if_pos (by simp [h]), if_neg (by simp [h])]
        omega

theorem process_omr_image_file_name
    (imdecode : List Nat → Option (List Nat))
    (pipe : Json → Template → List Nat → Except String Json)
    (defaults template_data : Json) (config_data : Option Json)
    (auto_align : Bool) (a : List Nat) (fn : String) :
    (process_omr_image imdecode pipe defaults template_data config_data
      auto_align a fn).file_name = fn := by
  cases h1 : imdecode a with
  | none => simp [process_omr_image, h1]
  | some image =>
      cases h2 : prepare_config defaults config_data auto_align true with
      | error e => simp [process_omr_image, h1, h2]
      | ok config =>
          cases h3 : template_from_dict template_data with
          | error e => simp [process_omr_image, h1, h2, h3]
          | ok template =>
              cases h4 : pipe config template image with
              | error e => simp [process_omr_image, h1, h2, h3, h4]
              | ok resp => simp [process_omr_image, h1, h2, h3, h4]

theorem process_omr_batch_results
    (imdecode : List Nat → Option (List Nat))
    (pipe : Json → Template → List Nat → Except String Json)
    (defaults template_data : Json) (config_data : Option Json)
    (auto_align : Bool) (images_data : List (List Nat))
    (file_names : List String) :
    (process_omr_batch imdecode pipe defaults template_data config_data
        auto_align images_data file_names).results =
      (images_data.zip file_names).map (fun p =>
        process_omr_image imdecode pipe defaults template_data config_data
          auto_align p.1 p.2) := rfl

theorem process_dir_payload_shape
    (imdecode : List Nat → Option (List Nat))
    (pipe : Json → Template → List Nat → Except String Json)
    (defaults : Json) (dir : DirContent) (auto_align : Bool)
    (b : BatchResult)
    (h : process_dir_for_api imdecode pipe defaults dir auto_align =
      .payload b) :
    ∃ g : String → ProcResult,
      (∀ name, (g name).file_name = name) ∧
      b = { status := "success"
            total := (discoverImages dir.entries).length
            successful := ((discoverImages dir.entries).map g).countP
              (fun r => r.status == "success")
            failed := ((discoverImages dir.entries).map g).countP
              (fun r => r.status != "success")
            results := (discoverImages dir.entries).map g } := by
  simp only [process_dir_for_api] at h
  repeat' split at h
  all_goals
    first
      | (injection h with h2
         refine ⟨_, ?_, h2.symm⟩
         intro name
         split
         · rfl
         · split <;> rfl)
      | injection h

/-- C1: for every batch of N items given to process_omr_batch (images
zipped with names, of equal length N) with k items whose processing
fails, the batch payload has total = N, results in input order with one
record per item (the record of item i being exactly the processing of
item i, carrying its file name), failed = k, successful = N - k, and
successful + failed = total, regardless of which items failed. -/
theorem C1_batch_aggregates
    (imdecode : List Nat → Option (List Nat))
    (pipe : Json → Template → List Nat → Except String Json)
    (defaults template_data : Json) (config_data : Option Json)
    (auto_align : Bool) (images_data : List (List Nat))
    (file_names : List String)
    (h : images_data.length = file_names.length) :
    (process_omr_batch imdecode pipe defaults template_data config_data
        auto_align images_data file_names).total = images_data.length ∧
    (process_omr_batch imdecode pipe defaults template_data config_data
        auto_align images_data file_names).results.length =
      images_data.length ∧
    (process_omr_batch imdecode pipe defaults template_data config_data
        auto_align images_data file_names).successful +
      (process_omr_batch imdecode pipe defaults template_data config_data
        auto_align images_data file_names).failed =
      (process_omr_batch imdecode pipe defaults template_data config_data
        auto_align images_data file_names).total ∧
    (process_omr_batch imdecode pipe defaults template_data config_data
        auto_align images_data file_names).failed =
      (images_data.zip file_names).countP (fun p =>
        (process_omr_image imdecode pipe defaults template_data config_data
          auto_align p.1 p.2).status != "success") ∧
    (process_omr_batch imdecode pipe defaults template_data config_data
        auto_align images_data file_names).successful =
      images_data.length -
        (images_data.zip file_names).countP (fun p =>
          (process_omr_image imdecode pipe defaults template_data config_data
            auto_align p.1 p.2).status != "success") ∧
    (∀ (i : Nat) (a : List Nat) (fn : String),
      images_data[i]? = some a → file_names[i]? = some fn →
      (process_omr_batch imdecode pipe defaults template_data config_data
          auto_align images_data file_names).results[i]? =
        some (process_omr_image imdecode pipe defaults template_data
          config_data auto_align a fn) ∧
      ((process_omr_batch imdecode pipe defaults template_data config_data
          auto_align images_data file_names).results[i]?.map
        ProcResult.file_name) = some fn) ∧
    (∀ (dir : DirContent) (b : BatchResult),
      process_dir_for_api imdecode pipe defaults dir auto_align =
        .payload b →
      b.total = (discoverImages dir.entries).length ∧
      b.results.length = b.total ∧
      b.successful + b.failed = b.total ∧
      (∀ (i : Nat), b.results[i]?.map ProcResult.file_name =
        (discoverImages dir.entries)[i]?)) := by
  have hres := process_omr_batch_results imdecode pipe defaults
    template_data config_data auto_align images_data file_names
  have hlen : (process_omr_batch imdecode pipe defaults template_data
      config_data auto_align images_data file_names).results.length =
      images_data.length := by
    rw [hres, List.length_map, List.length_zip, ← h, Nat.min_self]
  have htotal : (process_omr_batch imdecode pipe defaults template_data
      config_data auto_align images_data file_names).total =
      images_data.length := rfl
  have hfailed : (process_omr_batch imdecode pipe defaults template_data
      config_data auto_align images_data file_names).failed =
      (images_data.zip file_names).countP (fun p =>
        (process_omr_image imdecode pipe defaults template_data config_data
          auto_align p.1 p.2).status != "success") := by
    show ((images_data.zip file_names).map _).countP _ = _
    rw [List.countP_map]
    rfl
  have hsucc : (process_omr_batch imdecode pipe defaults template_data
      config_data auto_align images_data file_names).successful =
      (images_data.zip file_names).countP (fun p =>
        (process_omr_image imdecode pipe defaults template_data config_data
          auto_align p.1 p.2).status == "success") := by
    show ((images_data.zip file_names).map _).countP _ = _
    rw [List.countP_map]
    rfl
  have hsum : (process_omr_batch imdecode pipe defaults template_data
      config_data auto_align images_data file_names).successful +
      (process_omr_batch imdecode pipe defaults template_data config_data
        auto_align images_data file_names).failed =
      images_data.length := by
    have hsplit := countP_bool_split
      (fun r : ProcResult => r.status == "success")
      ((images_data.zip file_names).map (fun p =>
        process_omr_image imdecode pipe defaults template_data config_data
          auto_align p.1 p.2))
    have : ((images_data.zip file_names).map (fun p =>
        process_omr_image imdecode pipe defaults template_data config_data
          auto_align p.1 p.2)).length = images_data.length := by
      rw [List.length_map, List.length_zip, ← h, Nat.min_self]
    rw [this] at hsplit
    exact hsplit
  refine ⟨htotal, hlen, by rw [htotal]; exact hsum, hfailed, ?_, ?_, ?_⟩
  · have := hsum
    rw [hfailed] at this
    omega
  · intro i a fn ha hfn
    have hz : (images_data.zip file_names)[i]? = some (a, fn) :=
      List.getElem?_zip_eq_some.mpr ⟨ha, hfn⟩
    have : (process_omr_batch imdecode pipe defaults template_data
        config_data auto_align images_data file_names).results[i]? =
        some (process_omr_image imdecode pipe defaults template_data
          config_data auto_align a fn) := by
      rw [hres, List.getElem?_map, hz]
      rfl
    refine ⟨this, ?_⟩
    rw [this]
    simp [process_omr_image_file_name]
  · intro dir b hdir
    obtain ⟨g, hgfn, rfl⟩ := process_dir_payload_shape imdecode pipe
      defaults dir auto_align b hdir
    refine ⟨rfl, List.length_map _ _, ?_, ?_⟩
    · show List.countP _ _ + List.countP _ _ =
        (discoverImages dir.entries).length
      have hsplit := countP_bool_split
        (fun r : ProcResult => r.status == "success")
        ((discoverImages dir.entries).map g)
      rw [List.length_map] at hsplit
      exact hsplit
    · intro i
      show Option.map ProcResult.file_name
        (((discoverImages dir.entries).map g)[i]?) = _
      rw [List.getElem?_map]
      cases hx : (discoverImages dir.entries)[i]? with
      | none => rfl
      | some name =>
          show some (g name).file_name = some name
          rw [hgfn name]

/-- Witness for C1 at a concrete two-item batch whose items both fail. -/
theorem C1_batch_aggregates_witness :
    (process_omr_batch decNone pipeErr (.num 0) tdGood none false
        [[0], [1]] ["a.jpg", "b.jpg"]).successful +
      (process_omr_batch decNone pipeErr (.num 0) tdGood none false
        [[0], [1]] ["a.jpg", "b.jpg"]).failed =
      (process_omr_batch decNone pipeErr (.num 0) tdGood none false
        [[0], [1]] ["a.jpg", "b.jpg"]).total :=
  (C1_batch_aggregates decNone pipeErr (.num 0) tdGood none false
    [[0], [1]] ["a.jpg", "b.jpg"] rfl).2.2.1

/-- C2: process_omr_image is a total function into ProcessingResult: undecodable
bytes yield an error record with the file name and the decode message, and
a raised exception at any later stage (configuration, template
materialization, pipeline) yields an error record with the file name and
the raised message — nothing propagates.  Inside a batch the record of
position j is a function of item j alone, so a failing item leaves every
other item record unchanged and the batch completes. -/
theorem C2_item_error_isolation
    (imdecode : List Nat → Option (List Nat))
    (pipe : Json → Template → List Nat → Except String Json)
    (defaults template_data : Json) (config_data : Option Json)
    (auto_align : Bool) :
    (∀ (a : List Nat) (fn : String), imdecode a = none →
      process_omr_image imdecode pipe defaults template_data config_data
        auto_align a fn =
      ⟨"error", fn, some "Failed to decode image", none⟩) ∧
    (∀ (a img : List Nat) (fn e : String), imdecode a = some img →
      prepare_config defaults config_data auto_align true = .error e →
      process_omr_image imdecode pipe defaults template_data config_data
        auto_align a fn = ⟨"error", fn, some e, none⟩) ∧
    (∀ (a img : List Nat) (fn e : String) (config : Json),
      imdecode a = some img →
      prepare_config defaults config_data auto_align true = .ok config →
      template_from_dict template_data = .error e →
      process_omr_image imdecode pipe defaults template_data config_data
        auto_align a fn = ⟨"error", fn, some e, none⟩) ∧
    (∀ (a img : List Nat) (fn e : String) (config : Json) (t : Template),
      imdecode a = some img →
      prepare_config defaults config_data auto_align true = .ok config →
      template_from_dict template_data = .ok t →
      pipe config t img = .error e →
      process_omr_image imdecode pipe defaults template_data config_data
        auto_align a fn = ⟨"error", fn, some e, none⟩) ∧
    (∀ (images1 images2 : List (List Nat)) (names1 names2 : List String)
      (j : Nat), images1[j]? = images2[j]? → names1[j]? = names2[j]? →
      (process_omr_batch imdecode pipe defaults template_data config_data
          auto_align images1 names1).results[j]? =
      (process_omr_batch imdecode pipe defaults template_data config_data
          auto_align images2 names2).results[j]?) := by
  refine ⟨?_, ?_, ?_, ?_, ?_⟩
  · intro a fn h1
    simp [process_omr_image, h1]
  · intro a img fn e h1 h2
    simp [process_omr_image, h1, h2]
  · intro a img fn e config h1 h2 h3
    simp [process_omr_image, h1, h2, h3]
  · intro a img fn e config t h1 h2 h3 h4
    simp [process_omr_image, h1, h2, h3, h4]
  · intro images1 images2 names1 names2 j h1 h2
    rw [process_omr_batch_results, process_omr_batch_results,
      List.getElem?_map, List.getElem?_map]
    have hz : (images1.zip names1)[j]? = (images2.zip names2)[j]? := by
      rw [List.zip_eq_zipWith, List.zip_eq_zipWith,
        List.getElem?_zipWith, List.getElem?_zipWith, h1, h2]
    rw [hz]

/-- Witness for C2 at concrete inputs: an undecodable item, a bad
template, a raised pipeline, and two batches agreeing at position 0. -/
theorem C2_item_error_isolation_witness :
    process_omr_image decNone pipeErr (.num 0) tdGood none false
      [0] "x.jpg" = ⟨"error", "x.jpg", some "Failed to decode image", none⟩ ∧
    (process_omr_batch decSome pipeErr (.num 0) tdGood none false
        [[1], [2]] ["a.jpg", "b.jpg"]).results[0]? =
      (process_omr_batch decSome pipeErr (.num 0) tdGood none false
        [[1], [9]] ["a.jpg", "c.jpg"]).results[0]? := by
  constructor
  · exact (C2_item_error_isolation decNone pipeErr (.num 0) tdGood none
      false).1 [0] "x.jpg" rfl
  · exact (C2_item_error_isolation decSome pipeErr (.num 0) tdGood none
      false).2.2.2.2 [[1], [2]] [[1], [9]] ["a.jpg", "b.jpg"]
      ["a.jpg", "c.jpg"] 0 rfl rfl

/-- C10: the top-level status field of the batch payload built by
process_omr_batch, and of the batch payload a directory-mode run returns,
is the constant string success for every input — even when every item
failed, as the concrete all-failing two-item batch shows; item failures
surface only in the per-item records and the counts. -/
theorem C10_top_status_constant :
    (∀ (imdecode : List Nat → Option (List Nat))
      (pipe : Json → Template → List Nat → Except String Json)
      (defaults template_data : Json) (config_data : Option Json)
      (auto_align : Bool) (images_data : List (List Nat))
      (file_names : List String),
      (process_omr_batch imdecode pipe defaults template_data config_data
        auto_align images_data file_names).status = "success") ∧
    (∀ (imdecode : List Nat → Option (List Nat))
      (pipe : Json → Template → List Nat → Except String Json)
      (defaults : Json) (dir : DirContent) (auto_align : Bool)
      (b : BatchResult),
      process_dir_for_api imdecode pipe defaults dir auto_align =
        .payload b → b.status = "success") ∧
    (process_omr_batch decNone pipeErr (.num 0) tdGood none false
        [[0], [1]] ["a.jpg", "b.jpg"]).failed =
      (process_omr_batch decNone pipeErr (.num 0) tdGood none false
        [[0], [1]] ["a.jpg", "b.jpg"]).total ∧
    (process_omr_batch decNone pipeErr (.num 0) tdGood none false
        [[0], [1]] ["a.jpg", "b.jpg"]).status = "success" := by
  refine ⟨fun _ _ _ _ _ _ _ _ => rfl, ?_, rfl, rfl⟩
  intro imdecode pipe defaults dir auto_align b h
  simp only [process_dir_for_api] at h
  repeat' split at h
  all_goals
    first
      | (injection h with h2
         rw [← h2])
      | injection h

theorem eval_built_none : built_config none false true = .ok (.obj [
    ("dimensions", .obj [
      ("display_width", .num 1240),
      ("display_height", .num 1754),
      ("processing_height", .num 1754),
      ("processing_width", .num 1240)]),
    ("threshold_params", .obj [("MIN_JUMP", .num 10)]),
    ("outputs", .obj [
      ("filter_out_multimarked_files", .bool false),
      ("show_image_level", .num 0),
      ("save_image_level", .num 0)]),
    ("alignment_params", .obj [("auto_align", .bool false)])]) := rfl

theorem eval_prepare_num0 : prepare_config (.num 0) none false true =
    .ok (.obj [
    ("dimensions", .obj [
      ("display_width", .num 1240),
      ("display_height", .num 1754),
      ("processing_height", .num 1754),
      ("processing_width", .num 1240)]),
    ("threshold_params", .obj [("MIN_JUMP", .num 10)]),
    ("outputs", .obj [
      ("filter_out_multimarked_files", .bool false),
      ("show_image_level", .num 0),
      ("save_image_level", .num 0)]),
    ("alignment_params", .obj [("auto_align", .bool false)])]) := by
  rw [prepare_config, eval_built_none]
  simp [Except.map, alwaysMerge]

/-- Witness for C10 at the concrete directory dir0, whose only image fails
to decode: the returned batch payload still carries status success. -/
theorem C10_top_status_constant_witness :
    (payloadOf (process_dir_for_api decNone pipeErr (.num 0) dir0
      false)).status = "success" :=
  C10_top_status_constant.2.1 decNone pipeErr (.num 0) dir0 false _ (by
    simp only [process_dir_for_api, dir0, eval_prepare_num0, payloadOf,
      Bool.false_eq_true, if_false, reduceIte]
    rfl)

/-- C3 counterexample: a request whose shared context is invalid (the
template has no fieldBlocks) is NOT aborted before any item is processed
when it goes through process_omr_batch: the one-item batch completes,
produces a per-item error record, and its top-level status is success,
not a single top-level error. -/
theorem C3_counterexample_batch_not_aborted :
    (process_omr_batch decSome pipeOk (.num 0) tdNoBlocks none false
        [[5]] ["a.jpg"]).status = "success" ∧
    (process_omr_batch decSome pipeOk (.num 0) tdNoBlocks none false
        [[5]] ["a.jpg"]).status ≠ "error" ∧
    (process_omr_batch decSome pipeOk (.num 0) tdNoBlocks none false
        [[5]] ["a.jpg"]).results =
      [⟨"error", "a.jpg",
        some "Invalid template: missing or empty fieldBlocks", none⟩] ∧
    (process_omr_batch decSome pipeOk (.num 0) tdNoBlocks none false
        [[5]] ["a.jpg"]).results.length ≠ 0 := by
  have himg : process_omr_image decSome pipeOk (.num 0) tdNoBlocks none
      false [5] "a.jpg" =
      ⟨"error", "a.jpg",
        some "Invalid template: missing or empty fieldBlocks", none⟩ := by
    simp only [process_omr_image, decSome, eval_prepare_num0]
    rfl
  refine ⟨rfl, by decide, ?_, ?_⟩
  · rw [process_omr_batch_results]
    simp only [List.zip_cons_cons, List.zip_nil_right, List.map_cons,
      List.map_nil, himg]
  · rw [process_omr_batch_results]
    simp

/-- C3 amended: an invalid shared context does not abort an upload-mode
batch: whether the template fails to materialize or the configuration
preparation raises, every item is still processed, each yields a
per-item error record, and the payload completes with top-level status
success, failed equal to the number of items and successful zero.  Only
directory mode aborts: there the same template failure escapes
process_dir_for_api as a raised exception before any item runs. -/
theorem C3_amended_shared_context_per_item
    (imdecode : List Nat → Option (List Nat))
    (pipe : Json → Template → List Nat → Except String Json)
    (defaults template_data : Json) (config_data : Option Json)
    (auto_align : Bool) (images_data : List (List Nat))
    (file_names : List String) (e : String) :
    (template_from_dict template_data = .error e →
      (process_omr_batch imdecode pipe defaults template_data config_data
          auto_align images_data file_names).status = "success" ∧
      (∀ r ∈ (process_omr_batch imdecode pipe defaults template_data
          config_data auto_align images_data file_names).results,
        r.status = "error") ∧
      (process_omr_batch imdecode pipe defaults template_data config_data
          auto_align images_data file_names).failed =
        (images_data.zip file_names).length ∧
      (process_omr_batch imdecode pipe defaults template_data config_data
          auto_align images_data file_names).successful = 0) ∧
    (prepare_config defaults config_data auto_align true = .error e →
      (process_omr_batch imdecode pipe defaults template_data config_data
          auto_align images_data file_names).status = "success" ∧
      (∀ r ∈ (process_omr_batch imdecode pipe defaults template_data
          config_data auto_align images_data file_names).results,
        r.status = "error") ∧
      (process_omr_batch imdecode pipe defaults template_data config_data
          auto_align images_data file_names).failed =
        (images_data.zip file_names).length ∧
      (process_omr_batch imdecode pipe defaults template_data config_data
          auto_align images_data file_names).successful = 0) ∧
    (∀ (dir : DirContent) (config : Json), dir.present = true →
      dir.hasTemplate = true →
      (discoverImages dir.entries).isEmpty = false →
      prepare_config defaults
        (if dir.hasConfig then some dir.config_data else none)
        auto_align true = .ok config →
      template_from_dict dir.template_data = .error e →
      process_dir_for_api imdecode pipe defaults dir auto_align =
        .raised e) := by
  have hstatus : ∀ (a : List Nat) (fn : String),
      template_from_dict template_data = .error e ∨
      prepare_config defaults config_data auto_align true = .error e →
      (process_omr_image imdecode pipe defaults template_data config_data
        auto_align a fn).status = "error" := by
    intro a fn hcase
    cases h1 : imdecode a with
    | none => simp [process_omr_image, h1]
    | some img =>
        cases h2 : prepare_config defaults config_data auto_align true with
        | error e2 => simp [process_omr_image, h1, h2]
        | ok config =>
            rcases hcase with htd | hcfg
            · simp [process_omr_image, h1, h2, htd]
            · rw [hcfg] at h2
              exact absurd h2 (by simp)
  have hbatch : template_from_dict template_data = .error e ∨
      prepare_config defaults config_data auto_align true = .error e →
      (process_omr_batch imdecode pipe defaults template_data config_data
          auto_align images_data file_names).status = "success" ∧
      (∀ r ∈ (process_omr_batch imdecode pipe defaults template_data
          config_data auto_align images_data file_names).results,
        r.status = "error") ∧
      (process_omr_batch imdecode pipe defaults template_data config_data
          auto_align images_data file_names).failed =
        (images_data.zip file_names).length ∧
      (process_omr_batch imdecode pipe defaults template_data config_data
          auto_align images_data file_names).successful = 0 := by
    intro hcase
    have hall : ∀ r ∈ (process_omr_batch imdecode pipe defaults
        template_data config_data auto_align images_data
        file_names).results, r.status = "error" := by
      intro r hr
      rw [process_omr_batch_results] at hr
      obtain ⟨p, _, rfl⟩ := List.mem_map.mp hr
      exact hstatus p.1 p.2 hcase
    refine ⟨rfl, hall, ?_, ?_⟩
    · show List.countP _ _ = _
      have h1 : (List.map (fun (p : List Nat × String) =>
          process_omr_image imdecode pipe defaults template_data config_data
            auto_align p.1 p.2) (images_data.zip file_names)).length =
          (images_data.zip file_names).length := List.length_map _ _
      rw [← h1, List.countP_eq_length]
      intro r hr
      have := hall r (by rw [process_omr_batch_results]; exact hr)
      simp [this]
    · show List.countP _ _ = 0
      rw [List.countP_eq_zero]
      intro r hr
      have := hall r (by rw [process_omr_batch_results]; exact hr)
      simp [this]
  refine ⟨fun h => hbatch (Or.inl h), fun h => hbatch (Or.inr h), ?_⟩
  intro dir config hpres htmpl himg hprep htd
  simp [process_dir_for_api, hpres, htmpl, himg, hprep, htd]

/-- Witness for C3 amended at a concrete one-item request with a template
that has no fieldBlocks. -/
theorem C3_amended_shared_context_per_item_witness :
    (process_omr_batch decSome pipeOk (.num 0) tdNoBlocks none false
        [[5]] ["a.jpg"]).failed = ([[5]].zip ["a.jpg"]).length :=
  ((C3_amended_shared_context_per_item decSome pipeOk (.num 0) tdNoBlocks
      none false [[5]] ["a.jpg"]
      "Invalid template: missing or empty fieldBlocks").1 rfl).2.2.1

theorem eval_built_c9 :
    built_config (some (.obj [("extra_key", .num 7)])) false true =
    .ok (.obj [
    ("dimensions", .obj [
      ("display_width", .num 1240),
      ("display_height", .num 1754),
      ("processing_height", .num 1754),
      ("processing_width", .num 1240)]),
    ("threshold_params", .obj [("MIN_JUMP", .num 10)]),
    ("outputs", .obj [
      ("filter_out_multimarked_files", .bool false),
      ("show_image_level", .num 0),
      ("save_image_level", .num 0)]),
    ("extra_key", .num 7),
    ("alignment_params", .obj [("auto_align", .bool false)])]) := by
  have hm : alwaysMerge get_default_config (.obj [("extra_key", .num 7)]) =
      .obj [
      ("dimensions", .obj [
        ("display_width", .num 1240),
        ("display_height", .num 1754),
        ("processing_height", .num 1754),
        ("processing_width", .num 1240)]),
      ("threshold_params", .obj [("MIN_JUMP", .num 10)]),
      ("outputs", .obj [
        ("filter_out_multimarked_files", .bool false),
        ("show_image_level", .num 0)]),
      ("extra_key", .num 7)] := by
    simp [get_default_config, alwaysMerge, mergeKVs, mergeUpsert, assocLookup]
  show apply_service_overrides _ false true = _
  rw [show (match some (Json.obj [("extra_key", Json.num 7)]) with
      | some cd =>
          if jsonTruthy cd then alwaysMerge get_default_config cd
          else get_default_config
      | none => get_default_config) =
      alwaysMerge get_default_config (.obj [("extra_key", .num 7)]) from rfl]
  rw [hm]
  rfl

theorem eval_c9_state1 : c9_state1 = .obj [
    ("dimensions", .obj [
      ("display_width", .num 1240),
      ("display_height", .num 1754),
      ("processing_height", .num 1754),
      ("processing_width", .num 1240)]),
    ("threshold_params", .obj [
      ("MIN_JUMP", .num 10),
      ("MIN_GAP", .num 30)]),
    ("alignment_params", .obj [
      ("auto_align", .bool false),
      ("match_col", .num 5),
      ("max_steps", .num 20)]),
    ("outputs", .obj [
      ("show_image_level", .num 0),
      ("save_image_level", .num 0),
      ("filter_out_multimarked_files", .bool false)]),
    ("extra_key", .num 7)] := by
  rw [c9_state1, prepare_config_state, prepare_config, eval_built_c9]
  simp only [Except.map]
  simp [CONFIG_DEFAULTS_init, alwaysMerge, mergeKVs, mergeUpsert, assocLookup]

theorem eval_c9_snapA : c9_snapA = CONFIG_DEFAULTS_init := by
  rw [c9_snapA, prepare_config_state, prepare_config, eval_built_none]
  simp only [Except.map]
  simp [CONFIG_DEFAULTS_init, alwaysMerge, mergeKVs, mergeUpsert, assocLookup]

theorem eval_c9_snapB : c9_snapB = c9_state1 := by
  rw [c9_snapB, prepare_config_state, prepare_config, eval_built_none]
  simp only [Except.map]
  rw [eval_c9_state1]
  simp [alwaysMerge, mergeKVs, mergeUpsert, assocLookup]

/-- C9: _prepare_config merges the built configuration into the shared
module-level CONFIG_DEFAULTS object, so one request mutates the defaults
later requests see: after a request supplying extra_key, the defaults
differ from their initial value, and a later request with no config of
its own receives a snapshot containing extra_key, unlike the identical
call made before that request — two calls with identical arguments
return different snapshots because of the call in between. -/
theorem C9_shared_defaults_mutation :
    getKey c9_snapA "extra_key" = none ∧
    getKey c9_snapB "extra_key" = some (.num 7) ∧
    c9_snapA ≠ c9_snapB ∧
    c9_state1 ≠ CONFIG_DEFAULTS_init ∧
    getKey CONFIG_DEFAULTS_init "extra_key" = none ∧
    getKey c9_state1 "extra_key" = some (.num 7) := by
  have hA : getKey c9_snapA "extra_key" = none := by
    rw [eval_c9_snapA]
    rfl
  have hB : getKey c9_snapB "extra_key" = some (.num 7) := by
    rw [eval_c9_snapB, eval_c9_state1]
    rfl
  have hS : getKey c9_state1 "extra_key" = some (.num 7) := by
    rw [eval_c9_state1]
    rfl
  refine ⟨hA, hB, ?_, ?_, rfl, hS⟩
  · intro h
    rw [h, hB] at hA
    exact absurd hA (by simp)
  · intro h
    rw [h] at hS
    exact absurd hS (by simp [CONFIG_DEFAULTS_init, getKey, assocLookup])

theorem eval_built_c4_1 : built_config (some c4_cfg1) false true =
    .ok (.obj [
    ("dimensions", .obj [
      ("display_width", .num 1240),
      ("display_height", .num 1754),
      ("processing_height", .num 1754),
      ("processing_width", .num 1240)]),
    ("threshold_params", .obj [("MIN_JUMP", .num 10)]),
    ("outputs", .obj [
      ("filter_out_multimarked_files", .bool false),
      ("show_image_level", .num 0),
      ("save_image_level", .num 0)]),
    ("custom_list", .arr [.num 1]),
    ("alignment_params", .obj [("auto_align", .bool false)])]) := by
  have hm : alwaysMerge get_default_config c4_cfg1 = .obj [
      ("dimensions", .obj [
        ("display_width", .num 1240),
        ("display_height", .num 1754),
        ("processing_height", .num 1754),
        ("processing_width", .num 1240)]),
      ("threshold_params", .obj [("MIN_JUMP", .num 10)]),
      ("outputs", .obj [
        ("filter_out_multimarked_files", .bool false),
        ("show_image_level", .num 0)]),
      ("custom_list", .arr [.num 1])] := by
    simp [get_default_config, c4_cfg1, alwaysMerge, mergeKVs, mergeUpsert,
      assocLookup]
  show apply_service_overrides _ false true = _
  rw [show (match some c4_cfg1 with
      | some cd =>
          if jsonTruthy cd then alwaysMerge get_default_config cd
          else get_default_config
      | none => get_default_config) =
      alwaysMerge get_default_config c4_cfg1 from by
    simp [c4_cfg1, jsonTruthy]]
  rw [hm]
  rfl

theorem eval_c4_state1 : c4_state1 = .obj [
    ("dimensions", .obj [
      ("display_width", .num 1240),
      ("display_height", .num 1754),
      ("processing_height", .num 1754),
      ("processing_width", .num 1240)]),
    ("threshold_params", .obj [
      ("MIN_JUMP", .num 10),
      ("MIN_GAP", .num 30)]),
    ("alignment_params", .obj [
      ("auto_align", .bool false),
      ("match_col", .num 5),
      ("max_steps", .num 20)]),
    ("outputs", .obj [
      ("show_image_level", .num 0),
      ("save_image_level", .num 0),
      ("filter_out_multimarked_files", .bool false)]),
    ("custom_list", .arr [.num 1])] := by
  rw [c4_state1, prepare_config_state, prepare_config, eval_built_c4_1]
  simp only [Except.map]
  simp [CONFIG_DEFAULTS_init, alwaysMerge, mergeKVs, mergeUpsert, assocLookup]

theorem eval_built_c4_2 : built_config (some c4_cfg2) false true =
    .ok (.obj [
    ("dimensions", .obj [
      ("display_width", .num 1240),
      ("display_height", .num 1754),
      ("processing_height", .num 1754),
      ("processing_width", .num 1240)]),
    ("threshold_params", .obj [("MIN_JUMP", .num 10)]),
    ("outputs", .obj [
      ("filter_out_multimarked_files", .bool false),
      ("show_image_level", .num 0),
      ("save_image_level", .num 0)]),
    ("custom_list", .arr [.num 2]),
    ("alignment_params", .obj [("auto_align", .bool false)])]) := by
  have hm : alwaysMerge get_default_config c4_cfg2 = .obj [
      ("dimensions", .obj [
        ("display_width", .num 1240),
        ("display_height", .num 1754),
        ("processing_height", .num 1754),
        ("processing_width", .num 1240)]),
      ("threshold_params", .obj [("MIN_JUMP", .num 10)]),
      ("outputs", .obj [
        ("filter_out_multimarked_files", .bool false),
        ("show_image_level", .num 0)]),
      ("custom_list", .arr [.num 2])] := by
    simp [get_default_config, c4_cfg2, alwaysMerge, mergeKVs, mergeUpsert,
      assocLookup]
  show apply_service_overrides _ false true = _
  rw [show (match some c4_cfg2 with
      | some cd =>
          if jsonTruthy cd then alwaysMerge get_default_config cd
          else get_default_config
      | none => get_default_config) =
      alwaysMerge get_default_config c4_cfg2 from by
    simp [c4_cfg2, jsonTruthy]]
  rw [hm]
  rfl

theorem eval_c4_snap2 : c4_snap2 = .obj [
    ("dimensions", .obj [
      ("display_width", .num 1240),
      ("display_height", .num 1754),
      ("processing_height", .num 1754),
      ("processing_width", .num 1240)]),
    ("threshold_params", .obj [
      ("MIN_JUMP", .num 10),
      ("MIN_GAP", .num 30)]),
    ("alignment_params", .obj [
      ("auto_align", .bool false),
      ("match_col", .num 5),
      ("max_steps", .num 20)]),
    ("outputs", .obj [
      ("show_image_level", .num 0),
      ("save_image_level", .num 0),
      ("filter_out_multimarked_files", .bool false)]),
    ("custom_list", .arr [.num 1, .num 2])] := by
  rw [c4_snap2, prepare_config_state, prepare_config, eval_built_c4_2]
  simp only [Except.map]
  rw [eval_c4_state1]
  simp [alwaysMerge, mergeKVs, mergeUpsert, assocLookup]

theorem eval_built_cPrec : built_config (some c4_cfgPrec) false true =
    .ok (.obj [
    ("dimensions", .obj [
      ("display_width", .num 1240),
      ("display_height", .num 1754),
      ("processing_height", .num 1754),
      ("processing_width", .num 1240)]),
    ("threshold_params", .obj [("MIN_JUMP", .num 99)]),
    ("outputs", .obj [
      ("filter_out_multimarked_files", .bool false),
      ("show_image_level", .num 0),
      ("save_image_level", .num 0)]),
    ("alignment_params", .obj [("auto_align", .bool false)]),
    ("user_key", .num 42)]) := by
  have hm : alwaysMerge get_default_config c4_cfgPrec = .obj [
      ("dimensions", .obj [
        ("display_width", .num 1240),
        ("display_height", .num 1754),
        ("processing_height", .num 1754),
        ("processing_width", .num 1240)]),
      ("threshold_params", .obj [("MIN_JUMP", .num 99)]),
      ("outputs", .obj [
        ("filter_out_multimarked_files", .bool false),
        ("show_image_level", .num 5)]),
      ("alignment_params", .obj [("auto_align", .bool true)]),
      ("user_key", .num 42)] := by
    simp [get_default_config, c4_cfgPrec, alwaysMerge, mergeKVs, mergeUpsert,
      assocLookup]
  show apply_service_overrides _ false true = _
  rw [show (match some c4_cfgPrec with
      | some cd =>
          if jsonTruthy cd then alwaysMerge get_default_config cd
          else get_default_config
      | none => get_default_config) =
      alwaysMerge get_default_config c4_cfgPrec from by
    simp [c4_cfgPrec, jsonTruthy]]
  rw [hm]
  rfl

theorem eval_c4_snapPrec : c4_snapPrec = .obj [
    ("dimensions", .obj [
      ("display_width", .num 1240),
      ("display_height", .num 1754),
      ("processing_height", .num 1754),
      ("processing_width", .num 1240)]),
    ("threshold_params", .obj [
      ("MIN_JUMP", .num 99),
      ("MIN_GAP", .num 30)]),
    ("alignment_params", .obj [
      ("auto_align", .bool false),
      ("match_col", .num 5),
      ("max_steps", .num 20)]),
    ("outputs", .obj [
      ("show_image_level", .num 0),
      ("save_image_level", .num 0),
      ("filter_out_multimarked_files", .bool false)]),
    ("user_key", .num 42)] := by
  rw [c4_snapPrec, prepare_config_state, prepare_config, eval_built_cPrec]
  simp only [Except.map]
  simp [CONFIG_DEFAULTS_init, alwaysMerge, mergeKVs, mergeUpsert, assocLookup]

/-- C4 counterexample: the claim says an array-valued key from a more
specific source fully replaces the lower-precedence value.  After a
request whose config carried custom_list = [1], a second request
supplying custom_list = [2] receives a snapshot in which custom_list is
the concatenation [1, 2] — the union of the two arrays, not the
replacement [2]. -/
theorem C4_counterexample_array_append :
    prepare_config c4_state1 (some c4_cfg2) false true = .ok c4_snap2 ∧
    getKey c4_snap2 "custom_list" = some (.arr [.num 1, .num 2]) ∧
    getKey c4_snap2 "custom_list" ≠ some (.arr [.num 2]) := by
  refine ⟨?_, ?_, ?_⟩
  · have h : c4_snap2 = prepare_config_state c4_state1 (some c4_cfg2)
        false true := rfl
    rw [h, prepare_config_state]
    cases hp : prepare_config c4_state1 (some c4_cfg2) false true with
    | ok r => rfl
    | error e =>
        rw [prepare_config, eval_built_c4_2] at hp
        simp [Except.map] at hp
  · rw [eval_c4_snap2]
    rfl
  · rw [eval_c4_snap2]
    simp [getKey, assocLookup]

/-- C4 amended: config resolution deep-merges with precedence, lowest to
highest: built-in defaults < hard-coded api defaults < request config <
service-mode overrides.  Object-valued keys merge recursively with the
more specific side winning key by key, a scalar from a more specific
source fully replaces the lower value, but an array-valued key is
APPENDED to the lower-precedence array (base followed by override), not
replaced.  The precedence chain is shown on a concrete snapshot whose
request config contests every level. -/
theorem C4_merge_rule_amended :
    (∀ (a c : List Json), alwaysMerge (.arr a) (.arr c) = .arr (a ++ c)) ∧
    (∀ (b : Json) (z : Int), alwaysMerge b (.num z) = .num z) ∧
    (∀ (b : Json) (x : Bool), alwaysMerge b (.bool x) = .bool x) ∧
    (∀ (b : Json) (s : String), alwaysMerge b (.str s) = .str s) ∧
    (∀ (base n : List (String × Json)) (q : String),
      (∀ kv ∈ n, kv.1 ≠ q) →
      assocLookup (mergeKVs base n) q = assocLookup base q) ∧
    (∀ (base n : List (String × Json)) (q : String) (v : Json),
      (n.map Prod.fst).Nodup → assocLookup n q = some v →
      assocLookup (mergeKVs base n) q =
        some (match assocLookup base q with
          | some old => alwaysMerge old v
          | none => v)) ∧
    getPath c4_snapPrec ["outputs", "show_image_level"] = some (.num 0) ∧
    getPath c4_snapPrec ["alignment_params", "auto_align"] =
      some (.bool false) ∧
    getPath c4_snapPrec ["threshold_params", "MIN_JUMP"] = some (.num 99) ∧
    getPath c4_snapPrec ["threshold_params", "MIN_GAP"] = some (.num 30) ∧
    getKey c4_snapPrec "user_key" = some (.num 42) ∧
    getPath c4_snapPrec ["dimensions", "display_width"] =
      some (.num 1240) := by
  refine ⟨alwaysMerge_arr_arr, alwaysMerge_num, alwaysMerge_bool,
    alwaysMerge_str,
    fun base n q h => assocLookup_mergeKVs_not_mem n base q h,
    fun base n q v hnd hv => assocLookup_mergeKVs_mem n base q v hnd hv,
    ?_, ?_, ?_, ?_, ?_, ?_⟩ <;>
    rw [eval_c4_snapPrec] <;> rfl

/-- Witness for C4 amended: the merge-rule clauses applied at concrete
association lists. -/
theorem C4_merge_rule_amended_witness :
    assocLookup (mergeKVs [("a", Json.num 1)] [("b", Json.num 2)]) "a" =
      some (.num 1) ∧
    assocLookup (mergeKVs [("a", Json.num 1)] [("a", Json.num 9)]) "a" =
      some (.num 9) := by
  constructor
  · exact (C4_merge_rule_amended.2.2.2.2.1 [("a", Json.num 1)]
      [("b", Json.num 2)] "a" (by
        intro kv hkv
        rw [List.mem_singleton] at hkv
        subst hkv
        decide)).trans rfl
  · refine (C4_merge_rule_amended.2.2.2.2.2.1 [("a", Json.num 1)]
      [("a", Json.num 9)] "a" (.num 9) (by simp) rfl).trans ?_
    show some (alwaysMerge (Json.num 1) (Json.num 9)) = some (Json.num 9)
    rw [alwaysMerge_num]

theorem eval_built_c5 : built_config (some c5_cfgBad) false true =
    .ok (.obj [
    ("dimensions", .obj [
      ("display_width", .num 1240),
      ("display_height", .num 1754),
      ("processing_height", .num 1754),
      ("processing_width", .num 1240)]),
    ("threshold_params", .num 5),
    ("outputs", .obj [
      ("filter_out_multimarked_files", .bool false),
      ("show_image_level", .num 0),
      ("save_image_level", .num 0)]),
    ("alignment_params", .obj [("auto_align", .bool false)])]) := by
  have hm : alwaysMerge get_default_config c5_cfgBad = .obj [
      ("dimensions", .obj [
        ("display_width", .num 1240),
        ("display_height", .num 1754),
        ("processing_height", .num 1754),
        ("processing_width", .num 1240)]),
      ("threshold_params", .num 5),
      ("outputs", .obj [
        ("filter_out_multimarked_files", .bool false),
        ("show_image_level", .num 0)])] := by
    simp [get_default_config, c5_cfgBad, alwaysMerge, mergeKVs, mergeUpsert,
      assocLookup]
  show apply_service_overrides _ false true = _
  rw [show (match some c5_cfgBad with
      | some cd =>
          if jsonTruthy cd then alwaysMerge get_default_config cd
          else get_default_config
      | none => get_default_config) =
      alwaysMerge get_default_config c5_cfgBad from by
    simp [c5_cfgBad, jsonTruthy]]
  rw [hm]
  rfl

theorem eval_c5_snapBad : c5_snapBad = .obj [
    ("dimensions", .obj [
      ("display_width", .num 1240),
      ("display_height", .num 1754),
      ("processing_height", .num 1754),
      ("processing_width", .num 1240)]),
    ("threshold_params", .num 5),
    ("alignment_params", .obj [
      ("auto_align", .bool false),
      ("match_col", .num 5),
      ("max_steps", .num 20)]),
    ("outputs", .obj [
      ("show_image_level", .num 0),
      ("save_image_level", .num 0),
      ("filter_out_multimarked_files", .bool false)])] := by
  rw [c5_snapBad, prepare_config_state, prepare_config, eval_built_c5]
  simp only [Except.map]
  simp [CONFIG_DEFAULTS_init, alwaysMerge, mergeKVs, mergeUpsert, assocLookup]

theorem eval_prepare_defaults_none :
    prepare_config CONFIG_DEFAULTS_init none false true =
      .ok CONFIG_DEFAULTS_init := by
  rw [prepare_config, eval_built_none]
  simp only [Except.map, Except.ok.injEq]
  simp [CONFIG_DEFAULTS_init, alwaysMerge, mergeKVs, mergeUpsert, assocLookup]

/-- C5 counterexample: the built-in defaults contain the nested key
threshold_params.MIN_JUMP, yet the snapshot resolved for the user config
that overrides threshold_params with the scalar 5 no longer contains it —
a user-supplied config mapping can remove a key the pipeline reads. -/
theorem C5_counterexample_nested_key_lost :
    prepare_config CONFIG_DEFAULTS_init (some c5_cfgBad) false true =
      .ok c5_snapBad ∧
    getPath CONFIG_DEFAULTS_init ["threshold_params", "MIN_JUMP"] =
      some (.num 10) ∧
    getPath c5_snapBad ["threshold_params", "MIN_JUMP"] = none := by
  refine ⟨?_, rfl, ?_⟩
  · have h : c5_snapBad = prepare_config_state CONFIG_DEFAULTS_init
        (some c5_cfgBad) false true := rfl
    rw [h, prepare_config_state]
    cases hp : prepare_config CONFIG_DEFAULTS_init (some c5_cfgBad)
        false true with
    | ok r => rfl
    | error e =>
        rw [prepare_config, eval_built_c5] at hp
        simp [Except.map] at hp
  · rw [eval_c5_snapBad]
    rfl

/-- C5 amended: for every user-supplied config mapping (or none), every
TOP-LEVEL key of the defaults object survives into the snapshot
_prepare_config returns; and every nested key path of the defaults
survives provided the built configuration is object-compatible with the
defaults (object-valued keys are overridden only by objects, with no
duplicate keys).  A user mapping replacing an object-valued key by a
scalar drops that subtree, as the counterexample shows. -/
theorem C5_keys_present_amended :
    (∀ (dkvs : List (String × Json)) (cd : Option Json) (aa : Bool)
      (snap : Json) (k : String),
      prepare_config (.obj dkvs) cd aa true = .ok snap →
      (assocLookup dkvs k).isSome = true →
      (getKey snap k).isSome = true) ∧
    (∀ (defaults c : Json) (cd : Option Json) (aa : Bool)
      (ks : List String),
      built_config cd aa true = .ok c →
      objCompat defaults c = true →
      (getPath defaults ks).isSome = true →
      prepare_config defaults cd aa true = .ok (alwaysMerge defaults c) ∧
      (getPath (alwaysMerge defaults c) ks).isSome = true) := by
  constructor
  · intro dkvs cd aa snap k hprep hk
    obtain ⟨c, hb, rfl⟩ := prepare_config_ok _ _ _ _ _ hprep
    obtain ⟨ckvs, rfl⟩ := built_config_ok_obj _ _ _ _ hb
    rw [alwaysMerge_obj_obj]
    show (assocLookup (mergeKVs dkvs ckvs) k).isSome = true
    exact assocLookup_mergeKVs_isSome ckvs dkvs k hk
  · intro defaults c cd aa ks hb hcompat hpath
    refine ⟨?_, getPath_alwaysMerge_isSome ks defaults c hcompat hpath⟩
    rw [prepare_config, hb]
    rfl

/-- Witness for C5 amended: the top-level key threshold_params of the
initial defaults survives a configless resolution. -/
theorem C5_keys_present_amended_witness :
    (getKey CONFIG_DEFAULTS_init "threshold_params").isSome = true := by
  have h := C5_keys_present_amended.1
    [("dimensions", Json.obj [
      ("display_width", Json.num 1240),
      ("display_height", Json.num 1754),
      ("processing_height", Json.num 1754),
      ("processing_width", Json.num 1240)]),
    ("threshold_params", Json.obj [
      ("MIN_JUMP", Json.num 10),
      ("MIN_GAP", Json.num 30)]),
    ("alignment_params", Json.obj [
      ("auto_align", Json.bool false),
      ("match_col", Json.num 5),
      ("max_steps", Json.num 20)]),
    ("outputs", Json.obj [
      ("show_image_level", Json.num 0),
      ("save_image_level", Json.num 0),
      ("filter_out_multimarked_files", Json.bool false)])]
    none false CONFIG_DEFAULTS_init "threshold_params"
    eval_prepare_defaults_none rfl
  exact h

/-- C6: on a template with no fieldBlocks, validate_template_json with
details reports valid false with the missing-fieldBlocks message, as the
claim says; but on a template whose only defect is a block without
fieldLabels — a template that materializes successfully and passes the
core validator — the Python function falls off the end of its body
(is_valid is assigned and never returned) and returns None instead of
the claimed details value with valid true and a warning naming the
block. -/
theorem C6_validate_details_behavior :
    validate_template_json tdNoBlocks true =
      .details false
        ["Invalid template: missing or empty fieldBlocks",
         "Missing or empty fieldBlocks"] [] ∧
    template_from_dict tdNoLabels = .ok ⟨tdNoLabels⟩ ∧
    core_validate tdNoLabels = none ∧
    validate_template_json tdNoLabels true = .pyNone :=
  ⟨rfl, rfl, rfl, rfl⟩

/-- C7: the round trip is broken in the code: tdGood materializes
successfully, yet running the validate-only mode on the same structure
returns the Python None value (the success path of validate_template_json
has no return statement), not a details value with valid true and zero
errors. -/
theorem C7_round_trip_returns_none :
    template_from_dict tdGood = .ok ⟨tdGood⟩ ∧
    core_validate tdGood = none ∧
    validate_template_json tdGood true = .pyNone :=
  ⟨rfl, rfl, rfl⟩

theorem cleanup_no_paths (temp : List TempEntry) (fs : List String)
    (h : ∀ p, temp.contains (TempEntry.pathVal p) = false) :
    cleanup_temp_files temp fs = fs := by
  unfold cleanup_temp_files
  induction fs with
  | nil => rfl
  | cons a fs ih =>
      rw [List.filter_cons]
      rw [h a]
      simp only [Bool.not_false, if_true]
      rw [ih]

theorem route_temp_files_no_paths (m : Option (List Nat))
    (imgs : List (List Nat)) (p : String) :
    (route_temp_files m imgs).contains (TempEntry.pathVal p) = false := by
  simp only [route_temp_files, List.contains, List.elem_eq_mem,
    decide_eq_false_iff_not, List.mem_append, List.mem_map]
  rintro (hm | ⟨b, _, hb⟩)
  · cases m with
    | none => simp at hm
    | some mb =>
        simp only [List.mem_singleton] at hm
        exact TempEntry.noConfusion hm
  · exact TempEntry.noConfusion hb

/-- C8: cleanup never deletes the persisted marker file, because
api/routes.py appends only raw byte payloads to temp_files and
cleanup_temp_files skips everything that is not a string path: the
file-system state after a request equals the state after the writes, and
in the concrete request with marker bytes and a CropOnMarkers template
the file /tmp/omr_marker_temp.jpg is still present when the request
completes. -/
theorem C8_marker_file_not_cleaned :
    (∀ (td : Json) (m : Option (List Nat)) (imgs : List (List Nat))
      (fs : List String),
      process_omr_route_fs td m imgs fs =
        imgs.foldl (fun acc _ => create_template_fs td m.isSome acc) fs) ∧
    process_omr_route_fs tdCrop (some [1]) [[2]] [] = [tempMarkerPath] ∧
    tempMarkerPath ∈ process_omr_route_fs tdCrop (some [1]) [[2]] [] := by
  have hgen : ∀ (td : Json) (m : Option (List Nat))
      (imgs : List (List Nat)) (fs : List String),
      process_omr_route_fs td m imgs fs =
        imgs.foldl (fun acc _ => create_template_fs td m.isSome acc) fs := by
    intro td m imgs fs
    unfold process_omr_route_fs
    exact cleanup_no_paths _ _ (route_temp_files_no_paths m imgs)
  refine ⟨hgen, ?_, ?_⟩
  · rw [hgen]
    rfl
  · rw [hgen]
    simp [create_template_fs, hasCropOnMarkers, tdCrop, getKey, assocLookup,
      tempMarkerPath]

/-- Witness for the general C8 clause at a concrete request without a
marker: cleanup leaves the file system exactly as the writes left it. -/
theorem C8_marker_file_not_cleaned_witness :
    process_omr_route_fs tdGood none [[2]] ["/data/x"] =
      [[2]].foldl (fun acc _ => create_template_fs tdGood false acc)
        ["/data/x"] :=
  C8_marker_file_not_cleaned.1 tdGood none [[2]] ["/data/x"]
